import Mathlib

/-!
Verification of the fraud-detection backend (`main.py`, `schemas.py`).

The repository ingests transaction records over HTTP, computes a heuristic
fraud-risk score (`compute_risk_score`), classifies it (`score_to_level`),
persists the transaction, and derives an `Alert` document when the level is
"high".  This file gives a shallow embedding of that core in Lean:

* Python floats carry only exactly-representable values in this program
  (integer point contributions; arbitrary amounts only flow through order
  comparisons), so numbers are modelled as rationals.
* Python truthiness on optional strings (`if tx.country`) is `truthy` on
  `Option String`; `str.upper` / `str.lower` are character-wise case maps.
* The Mongo collaborator (`create_document` / `get_documents`) is modelled
  as list state with a counter supplying storage identities.
-/

attribute [local semireducible] Rat.add Rat.mul

namespace FraudApp

/-- Python truthiness of an optional string: `None` and `""` are falsy. -/
def truthy : Option String → Bool
  | none => false
  | some s => s ≠ ""

/-- Character-wise upper-casing, modelling `str.upper` on the ASCII country codes used here. -/
def pyUpper (s : String) : String := ⟨s.data.map Char.toUpper⟩

/-- Character-wise lower-casing, modelling `str.lower`. -/
def pyLower (s : String) : String := ⟨s.data.map Char.toLower⟩

/-- `schemas.Transaction` after pydantic validation: required `user_id` and
non-negative `amount`, optional context fields, and the derived/label fields
the caller may also supply (`risk_score`, `risk_level`, `is_fraud`).
Timestamps are abstracted to natural numbers. -/
structure Transaction where
  transaction_id : Option String
  user_id : String
  amount : ℚ
  currency : String
  merchant : Option String
  merchant_category : Option String
  country : Option String
  channel : Option String
  timestamp : Option ℕ
  device_id : Option String
  ip_address : Option String
  risk_score : Option ℚ
  risk_level : Option String
  is_fraud : Option Bool
deriving DecidableEq, Repr

/-- `risky_countries` set from `compute_risk_score`. -/
def risky_countries : List String := ["RU", "NG", "UA", "BR", "CN"]

/-- Channel values treated as risky in `compute_risk_score`. -/
def risky_channels : List String := ["web", "card-not-present"]

/-- `high_risk_mcc` set from `compute_risk_score`. -/
def high_risk_mcc : List String := ["gambling", "crypto", "adult"]

/-- `main.compute_risk_score`: sequential accumulation of the five rule
contributions, then `min(score, 100.0)`. -/
def compute_risk_score (tx : Transaction) : ℚ :=
  let score : ℚ := 0
  let score : ℚ :=
    if 5000 ≤ tx.amount then score + 50
    else if 1000 ≤ tx.amount then score + 25
    else if 200 ≤ tx.amount then score + 10
    else score
  let score : ℚ :=
    if truthy tx.country ∧ pyUpper (tx.country.getD "") ∈ risky_countries then score + 15
    else score
  let score : ℚ :=
    if truthy tx.channel ∧ pyLower (tx.channel.getD "") ∈ risky_channels then score + 10
    else score
  let score : ℚ :=
    if truthy tx.merchant_category ∧ pyLower (tx.merchant_category.getD "") ∈ high_risk_mcc then
      score + 10
    else score
  let score : ℚ :=
    if ¬ truthy tx.ip_address ∨ ¬ truthy tx.device_id then score + 5
    else score
  min score 100

/-- `main.score_to_level`: thresholds evaluated high-to-low, first match wins. -/
def score_to_level (score : ℚ) : String :=
  if 70 ≤ score then "high"
  else if 40 ≤ score then "medium"
  else "low"

/-- A transaction value with every optional field absent, for building test inputs. -/
def baseTx : Transaction :=
  { transaction_id := none, user_id := "u1", amount := 0, currency := "USD",
    merchant := none, merchant_category := none, country := none, channel := none,
    timestamp := none, device_id := none, ip_address := none,
    risk_score := none, risk_level := none, is_fraud := some false }

/-- End-to-end scenario 1 of the spec (high risk). -/
def scenarioOne : Transaction :=
  { baseTx with
    amount := 6000
    country := some "RU"
    channel := some "web"
    merchant_category := some "gambling" }

/-- End-to-end scenario 2 of the spec (no signals). -/
def scenarioTwo : Transaction :=
  { baseTx with
    amount := 150
    country := some "US"
    channel := some "card"
    device_id := some "d1"
    ip_address := some "1.2.3.4" }

/-- End-to-end scenario 3 of the spec (low). -/
def scenarioThree : Transaction :=
  { baseTx with
    amount := 1200
    country := some "DE"
    channel := some "mobile" }

/-- End-to-end scenario 4 of the spec (medium). -/
def scenarioFour : Transaction :=
  { baseTx with
    amount := 500
    country := some "NG"
    channel := some "card-not-present"
    merchant_category := some "adult"
    ip_address := some "9.9.9.9"
    device_id := some "dev" }

example : compute_risk_score scenarioOne = 90 := by decide

example : compute_risk_score scenarioTwo = 0 := by decide

example : compute_risk_score scenarioThree = 30 := by decide

example : compute_risk_score scenarioFour = 45 := by decide

example : score_to_level 90 = "high" ∧ score_to_level 45 = "medium" ∧ score_to_level 30 = "low" := by
  decide

/-- A persisted document of the "transaction" collection: the payload's fields
as dumped by `payload.model_dump()`, with `timestamp` defaulted, with
`risk_score` and `risk_level` overwritten by the server, and with the storage
identity assigned by `create_document`.  Note that `is_fraud` is whatever the
caller supplied: `create_transaction` never touches that key. -/
structure TxDoc where
  id : ℕ
  transaction_id : Option String
  user_id : String
  amount : ℚ
  currency : String
  merchant : Option String
  merchant_category : Option String
  country : Option String
  channel : Option String
  timestamp : ℕ
  device_id : Option String
  ip_address : Option String
  risk_score : ℚ
  risk_level : String
  is_fraud : Option Bool
deriving DecidableEq, Repr

/-- A persisted document of the "alert" collection (`schemas.Alert`). -/
structure AlertDoc where
  transaction_ref : ℕ
  user_id : String
  reason : String
  risk_score : ℚ
  risk_level : String
  tags : List String
deriving DecidableEq, Repr

/-- The document store: the two collections plus the counter that hands out
storage identities (`create_document` returning `inserted_id`). -/
structure DB where
  nextId : ℕ
  transactions : List TxDoc
  alerts : List AlertDoc
deriving DecidableEq, Repr

/-- The empty store. -/
def initDB : DB := { nextId := 0, transactions := [], alerts := [] }

/-- Python `s or d` for an optional string `s`: the default replaces `None` and `""`. -/
def pyOrStr (s : Option String) (d : String) : String :=
  match s with
  | none => d
  | some t => if t = "" then d else t

/-- The f-string building the alert reason in `create_transaction`. -/
def mkReason (amount : ℚ) (currency : String) (merchant : Option String) : String :=
  "High-risk transaction: $" ++ toString amount ++ " " ++ currency ++ " at "
    ++ pyOrStr merchant "unknown merchant"

/-- The list comprehension building the alert tags: keep the truthy entries,
in order, no deduplication. -/
def truthyFilter (l : List (Option String)) : List String :=
  l.filterMap fun o =>
    match o with
    | none => none
    | some s => if s = "" then none else some s

/-- The `if level == "high"` block of `create_transaction`: the optional
`Alert` document derived from a scored transaction. -/
def derive_alert (payload : Transaction) (inserted_id : ℕ) (score : ℚ) (level : String) :
    Option AlertDoc :=
  if level = "high" then
    some { transaction_ref := inserted_id
           user_id := payload.user_id
           reason := mkReason payload.amount payload.currency payload.merchant
           risk_score := score
           risk_level := level
           tags := truthyFilter [payload.merchant_category, payload.channel, payload.country] }
  else none

/-- The transaction document written by `create_transaction`: the payload with
timestamp defaulted and the derived keys overwritten (only those two). -/
def mkTxDoc (payload : Transaction) (id ts : ℕ) (score : ℚ) (level : String) : TxDoc :=
  { id := id
    transaction_id := payload.transaction_id
    user_id := payload.user_id
    amount := payload.amount
    currency := payload.currency
    merchant := payload.merchant
    merchant_category := payload.merchant_category
    country := payload.country
    channel := payload.channel
    timestamp := ts
    device_id := payload.device_id
    ip_address := payload.ip_address
    risk_score := score
    risk_level := level
    is_fraud := payload.is_fraud }

/-- The response body of `POST /api/transactions`. -/
structure CreateTransactionResponse where
  id : ℕ
  risk_score : ℚ
  risk_level : String
deriving DecidableEq, Repr

/-- `main.create_transaction` on an already-validated payload: default the
timestamp, score, classify, persist the transaction, persist the derived
alert when the level is "high", return the summary. `now` abstracts
`datetime.now(timezone.utc)`. -/
def create_transaction (payload : Transaction) (now : ℕ) (db : DB) :
    DB × CreateTransactionResponse :=
  let ts := payload.timestamp.getD now
  let score := compute_risk_score payload
  let level := score_to_level score
  let inserted_id := db.nextId
  let txDoc := mkTxDoc payload inserted_id ts score level
  let db1 : DB :=
    { nextId := db.nextId + 1
      transactions := db.transactions ++ [txDoc]
      alerts := db.alerts }
  let db2 : DB :=
    match derive_alert payload inserted_id score level with
    | some a => { db1 with alerts := db1.alerts ++ [a] }
    | none => db1
  (db2, { id := inserted_id, risk_score := score, risk_level := level })

/-- A create-request body before pydantic validation.  `none` on `user_id` /
`amount` means the required field is missing (or null, which pydantic rejects
the same way for these non-nullable types).  For the fields whose schema
default is non-null (`currency`, `country`, `channel`, `is_fraud`), the outer
`Option` distinguishes a missing field (default applies) from a supplied
value; `country` and `channel` are nullable, so their supplied value is again
optional.  The remaining optional fields default to null, where missing and
explicit null coincide. -/
structure RawRequest where
  transaction_id : Option String
  user_id : Option String
  amount : Option ℚ
  currency : Option String
  merchant : Option String
  merchant_category : Option String
  country : Option (Option String)
  channel : Option (Option String)
  timestamp : Option ℕ
  device_id : Option String
  ip_address : Option String
  risk_score : Option ℚ
  risk_level : Option String
  is_fraud : Option (Option Bool)
deriving DecidableEq, Repr

/-- The `ge=0, le=100` bound pydantic places on a supplied `risk_score`. -/
def riskScoreOutOfRange (rs : Option ℚ) : Bool :=
  match rs with
  | none => false
  | some v => if v < 0 ∨ 100 < v then true else false

/-- Pydantic validation of `schemas.Transaction`: `user_id` and `amount` are
required, `amount` carries `ge=0`, `risk_score` carries `ge=0, le=100`, and
the declared defaults fill the absent fields. -/
def validateTransaction (r : RawRequest) : Except String Transaction :=
  match r.user_id with
  | none => Except.error "user_id: field required"
  | some uid =>
    match r.amount with
    | none => Except.error "amount: field required"
    | some a =>
      if a < 0 then Except.error "amount: input should be greater than or equal to 0"
      else if riskScoreOutOfRange r.risk_score then
        Except.error "risk_score: input should be between 0 and 100"
      else
        Except.ok
          { transaction_id := r.transaction_id
            user_id := uid
            amount := a
            currency := r.currency.getD "USD"
            merchant := r.merchant
            merchant_category := r.merchant_category
            country := r.country.getD (some "US")
            channel := r.channel.getD (some "card")
            timestamp := r.timestamp
            device_id := r.device_id
            ip_address := r.ip_address
            risk_score := r.risk_score
            risk_level := r.risk_level
            is_fraud := r.is_fraud.getD (some false) }

/-- The `POST /api/transactions` endpoint over a raw body: pydantic validation
happens before the handler body runs, so a validation failure surfaces to the
caller with no persistence attempted. -/
def handle_create (r : RawRequest) (now : ℕ) (db : DB) :
    Except String (DB × CreateTransactionResponse) :=
  match validateTransaction r with
  | Except.error e => Except.error e
  | Except.ok tx => Except.ok (create_transaction tx now db)

/-- The store after one create-call: a rejected request leaves it unchanged. -/
def stepDB (db : DB) (req : RawRequest × ℕ) : DB :=
  match handle_create req.1 req.2 db with
  | Except.ok res => res.1
  | Except.error _ => db

/-- The store reached from empty by a sequence of create-calls. -/
def runRequests (reqs : List (RawRequest × ℕ)) : DB :=
  reqs.foldl stepDB initDB

/-- Python `limit or 50` on the query parameter (FastAPI default 50 when the
parameter is absent): `None` and `0` are falsy. -/
def pyOrInt (limit : Option ℤ) (d : ℤ) : ℤ :=
  match limit with
  | none => d
  | some n => if n = 0 then d else n

/-- The effective limit of the list endpoints:
`limit = min(max(1, limit or 50), 200)`. -/
def clampLimit (limit : Option ℤ) : ℤ :=
  min (max 1 (pyOrInt limit 50)) 200

/-- Modelled from the spec: `database.get_documents` is not under `src/`; the
spec describes it as "fetch up to N documents from named collection", so it is
modelled as taking a prefix of the collection's list. -/
def get_documents (docs : List α) (limit : ℤ) : List α :=
  docs.take limit.toNat

/-- `main.list_transactions`: clamp the limit, fetch.  The `_id`/timestamp
stringification does not change the number or order of items and is dropped. -/
def list_transactions (db : DB) (limit : Option ℤ) : List TxDoc :=
  get_documents db.transactions (clampLimit limit)

/-- `main.list_alerts`: clamp the limit, fetch. -/
def list_alerts (db : DB) (limit : Option ℤ) : List AlertDoc :=
  get_documents db.alerts (clampLimit limit)

/-! Claim-side decomposition of the scorer: the five independent rule
contributions the spec describes. -/

/-- Amount-bracket contribution: highest matching bracket wins. -/
def amountContribution (amount : ℚ) : ℚ :=
  if 5000 ≤ amount then 50
  else if 1000 ≤ amount then 25
  else if 200 ≤ amount then 10
  else 0

/-- Country-risk contribution: +15 for a truthy country in the risky set,
compared case-insensitively. -/
def countryContribution (country : Option String) : ℚ :=
  if truthy country ∧ pyUpper (country.getD "") ∈ risky_countries then 15 else 0

/-- Channel-risk contribution: +10 for a truthy channel in the risky set. -/
def channelContribution (channel : Option String) : ℚ :=
  if truthy channel ∧ pyLower (channel.getD "") ∈ risky_channels then 10 else 0

/-- Merchant-category contribution: +10 for a truthy category in the risky set. -/
def categoryContribution (mcc : Option String) : ℚ :=
  if truthy mcc ∧ pyLower (mcc.getD "") ∈ high_risk_mcc then 10 else 0

/-- Missing-identity contribution: +5 when the IP address is absent/empty or
the device id is absent/empty. -/
def missingIdentityContribution (ip device : Option String) : ℚ :=
  if ¬ truthy ip ∨ ¬ truthy device then 5 else 0

/-- The raw point sum before the clamp. -/
def raw_score (tx : Transaction) : ℚ :=
  amountContribution tx.amount + countryContribution tx.country
    + channelContribution tx.channel + categoryContribution tx.merchant_category
    + missingIdentityContribution tx.ip_address tx.device_id

lemma compute_risk_score_eq_min (tx : Transaction) :
    compute_risk_score tx = min (raw_score tx) 100 := by
  unfold compute_risk_score raw_score amountContribution countryContribution
    channelContribution categoryContribution missingIdentityContribution
  split_ifs <;> ring_nf

lemma amountContribution_units (a : ℚ) :
    ∃ k : ℕ, k ≤ 10 ∧ amountContribution a = 5 * (k : ℚ) := by
  unfold amountContribution
  split_ifs
  exacts [⟨10, by norm_num⟩, ⟨5, by norm_num⟩, ⟨2, by norm_num⟩, ⟨0, by norm_num⟩]

lemma countryContribution_units (c : Option String) :
    ∃ k : ℕ, k ≤ 3 ∧ countryContribution c = 5 * (k : ℚ) := by
  unfold countryContribution
  split_ifs
  exacts [⟨3, by norm_num⟩, ⟨0, by norm_num⟩]

lemma channelContribution_units (c : Option String) :
    ∃ k : ℕ, k ≤ 2 ∧ channelContribution c = 5 * (k : ℚ) := by
  unfold channelContribution
  split_ifs
  exacts [⟨2, by norm_num⟩, ⟨0, by norm_num⟩]

lemma categoryContribution_units (c : Option String) :
    ∃ k : ℕ, k ≤ 2 ∧ categoryContribution c = 5 * (k : ℚ) := by
  unfold categoryContribution
  split_ifs
  exacts [⟨2, by norm_num⟩, ⟨0, by norm_num⟩]

lemma missingIdentityContribution_units (ip device : Option String) :
    ∃ k : ℕ, k ≤ 1 ∧ missingIdentityContribution ip device = 5 * (k : ℚ) := by
  unfold missingIdentityContribution
  split_ifs
  exacts [⟨1, by norm_num⟩, ⟨0, by norm_num⟩]

lemma raw_score_units (tx : Transaction) :
    ∃ k : ℕ, k ≤ 18 ∧ raw_score tx = 5 * (k : ℚ) := by
  obtain ⟨k1, hk1, e1⟩ := amountContribution_units tx.amount
  obtain ⟨k2, hk2, e2⟩ := countryContribution_units tx.country
  obtain ⟨k3, hk3, e3⟩ := channelContribution_units tx.channel
  obtain ⟨k4, hk4, e4⟩ := categoryContribution_units tx.merchant_category
  obtain ⟨k5, hk5, e5⟩ := missingIdentityContribution_units tx.ip_address tx.device_id
  refine ⟨k1 + k2 + k3 + k4 + k5, by omega, ?_⟩
  rw [raw_score, e1, e2, e3, e4, e5]
  push_cast
  ring

lemma raw_score_le_ninety (tx : Transaction) : raw_score tx ≤ 90 := by
  obtain ⟨k, hk, e⟩ := raw_score_units tx
  rw [e]
  have : (k : ℚ) ≤ 18 := by exact_mod_cast hk
  linarith

lemma raw_score_nonneg (tx : Transaction) : 0 ≤ raw_score tx := by
  obtain ⟨k, _, e⟩ := raw_score_units tx
  rw [e]
  positivity

lemma compute_risk_score_eq_raw (tx : Transaction) :
    compute_risk_score tx = raw_score tx := by
  rw [compute_risk_score_eq_min, min_eq_left]
  linarith [raw_score_le_ninety tx]

/-- C1: the risk score is the clamped sum of the five independent rule
contributions; exactly one amount bracket contributes, and an absent/empty
country, channel or merchant category contributes nothing (only the
missing-identity rule fires on absence). -/
theorem compute_risk_score_decomposition (tx : Transaction) :
    compute_risk_score tx =
      min (amountContribution tx.amount + countryContribution tx.country
        + channelContribution tx.channel + categoryContribution tx.merchant_category
        + missingIdentityContribution tx.ip_address tx.device_id) 100
    ∧ ((5000 ≤ tx.amount ∧ amountContribution tx.amount = 50)
      ∨ (1000 ≤ tx.amount ∧ tx.amount < 5000 ∧ amountContribution tx.amount = 25)
      ∨ (200 ≤ tx.amount ∧ tx.amount < 1000 ∧ amountContribution tx.amount = 10)
      ∨ (tx.amount < 200 ∧ amountContribution tx.amount = 0))
    ∧ (truthy tx.country = false → countryContribution tx.country = 0)
    ∧ (truthy tx.channel = false → channelContribution tx.channel = 0)
    ∧ (truthy tx.merchant_category = false → categoryContribution tx.merchant_category = 0) := by
  refine ⟨compute_risk_score_eq_min tx, ?_, ?_, ?_, ?_⟩
  · unfold amountContribution
    rcases le_or_lt 5000 tx.amount with h1 | h1
    · exact Or.inl ⟨h1, by rw [if_pos h1]⟩
    · rcases le_or_lt 1000 tx.amount with h2 | h2
      · exact Or.inr (Or.inl ⟨h2, h1, by rw [if_neg (by linarith), if_pos h2]⟩)
      · rcases le_or_lt 200 tx.amount with h3 | h3
        · exact Or.inr (Or.inr (Or.inl ⟨h3, h2,
            by rw [if_neg (by linarith), if_neg (by linarith), if_pos h3]⟩))
        · exact Or.inr (Or.inr (Or.inr ⟨h3,
            by rw [if_neg (by linarith), if_neg (by linarith), if_neg (by linarith)]⟩))
  · intro h
    unfold countryContribution
    rw [if_neg]
    simp [h]
  · intro h
    unfold channelContribution
    rw [if_neg]
    simp [h]
  · intro h
    unfold categoryContribution
    rw [if_neg]
    simp [h]

/-- Witness for C1: the decomposition at end-to-end scenario 1, and the
absent-field conjuncts at the all-absent payload. -/
theorem compute_risk_score_decomposition_witness :
    compute_risk_score scenarioOne =
      min (amountContribution scenarioOne.amount + countryContribution scenarioOne.country
        + channelContribution scenarioOne.channel
        + categoryContribution scenarioOne.merchant_category
        + missingIdentityContribution scenarioOne.ip_address scenarioOne.device_id) 100
    ∧ countryContribution baseTx.country = 0
    ∧ channelContribution baseTx.channel = 0
    ∧ categoryContribution baseTx.merchant_category = 0 :=
  ⟨(compute_risk_score_decomposition scenarioOne).1,
    (compute_risk_score_decomposition baseTx).2.2.1 (by decide),
    (compute_risk_score_decomposition baseTx).2.2.2.1 (by decide),
    (compute_risk_score_decomposition baseTx).2.2.2.2 (by decide)⟩

/-- C7: for every valid transaction (non-negative amount) the computed risk
score lies in the interval from 0 to 100. -/
theorem compute_risk_score_in_range (tx : Transaction) (_h : 0 ≤ tx.amount) :
    0 ≤ compute_risk_score tx ∧ compute_risk_score tx ≤ 100 := by
  rw [compute_risk_score_eq_min]
  constructor
  · exact le_min (raw_score_nonneg tx) (by norm_num)
  · exact min_le_right _ _

/-- Witness for C7 at end-to-end scenario 1. -/
theorem compute_risk_score_in_range_witness :
    0 ≤ scenarioOne.amount
      ∧ (0 ≤ compute_risk_score scenarioOne ∧ compute_risk_score scenarioOne ≤ 100) :=
  ⟨by decide, compute_risk_score_in_range scenarioOne (by decide)⟩

/-- C10: the raw rule sum never exceeds 90, so the clamp at 100 is never the
binding operation, and every score is an integer multiple of 5. -/
theorem raw_score_bound_no_clamp (tx : Transaction) :
    raw_score tx ≤ 90
    ∧ compute_risk_score tx = raw_score tx
    ∧ compute_risk_score tx ≤ 90
    ∧ ∃ k : ℕ, k ≤ 18 ∧ compute_risk_score tx = 5 * (k : ℚ) := by
  refine ⟨raw_score_le_ninety tx, compute_risk_score_eq_raw tx, ?_, ?_⟩
  · rw [compute_risk_score_eq_raw]
    exact raw_score_le_ninety tx
  · rw [compute_risk_score_eq_raw]
    exact raw_score_units tx

lemma score_to_level_high_iff (s : ℚ) : score_to_level s = "high" ↔ 70 ≤ s := by
  unfold score_to_level
  split_ifs with h1 h2
  · exact iff_of_true rfl h1
  · exact iff_of_false (by decide) h1
  · exact iff_of_false (by decide) h1

lemma score_to_level_medium_iff (s : ℚ) :
    score_to_level s = "medium" ↔ 40 ≤ s ∧ s < 70 := by
  unfold score_to_level
  split_ifs with h1 h2
  · exact iff_of_false (by decide) fun hc => absurd h1 (not_le.mpr hc.2)
  · exact iff_of_true rfl ⟨h2, not_le.mp h1⟩
  · exact iff_of_false (by decide) fun hc => h2 hc.1

lemma score_to_level_low_iff (s : ℚ) : score_to_level s = "low" ↔ s < 40 := by
  unfold score_to_level
  split_ifs with h1 h2
  · exact iff_of_false (by decide) fun hc => absurd h1 (not_le.mpr (by linarith))
  · exact iff_of_false (by decide) fun hc => absurd h2 (not_le.mpr hc)
  · exact iff_of_true rfl (not_le.mp h2)

/-- C3: on the interval from 0 to 100 the classifier maps scores below 40 to
"low", scores from 40 below 70 to "medium", scores from 70 to "high", the
three ranges exhaust the interval without overlap, and exactly one label is
returned for every score. -/
theorem score_to_level_partition (s : ℚ) (h0 : 0 ≤ s) (h100 : s ≤ 100) :
    (score_to_level s = "low" ↔ 0 ≤ s ∧ s < 40)
    ∧ (score_to_level s = "medium" ↔ 40 ≤ s ∧ s < 70)
    ∧ (score_to_level s = "high" ↔ 70 ≤ s ∧ s ≤ 100)
    ∧ (score_to_level s = "low" ∨ score_to_level s = "medium"
        ∨ score_to_level s = "high") := by
  refine ⟨?_, score_to_level_medium_iff s, ?_, ?_⟩
  · rw [score_to_level_low_iff]
    exact ⟨fun h => ⟨h0, h⟩, fun h => h.2⟩
  · rw [score_to_level_high_iff]
    exact ⟨fun h => ⟨h, h100⟩, fun h => h.1⟩
  · rcases lt_or_le s 40 with h | h
    · exact Or.inl ((score_to_level_low_iff s).mpr h)
    · rcases lt_or_le s 70 with h' | h'
      · exact Or.inr (Or.inl ((score_to_level_medium_iff s).mpr ⟨h, h'⟩))
      · exact Or.inr (Or.inr ((score_to_level_high_iff s).mpr h'))

/-- Witness for C3 at the medium score 45. -/
theorem score_to_level_partition_witness :
    (0 : ℚ) ≤ 45 ∧ (45 : ℚ) ≤ 100 ∧ score_to_level 45 = "medium" :=
  ⟨by decide, by decide,
    ((score_to_level_partition 45 (by decide) (by decide)).2.1).mpr ⟨by decide, by decide⟩⟩

lemma create_transaction_alerts_eq (payload : Transaction) (now : ℕ) (db : DB) :
    (create_transaction payload now db).1.alerts =
      db.alerts ++ (derive_alert payload db.nextId (compute_risk_score payload)
        (score_to_level (compute_risk_score payload))).toList := by
  unfold create_transaction
  cases h : derive_alert payload db.nextId (compute_risk_score payload)
      (score_to_level (compute_risk_score payload)) <;> simp [h]

lemma derive_alert_isSome_iff (payload : Transaction) (id : ℕ) (score : ℚ) (level : String) :
    (derive_alert payload id score level).isSome = true ↔ level = "high" := by
  unfold derive_alert
  split_ifs with h <;> simp [h]

/-- C2: a create-call persists an alert exactly when the classified level of
the computed score is "high" (equivalently the score reaches 70); a "medium"
level leaves the alert collection untouched, and at most one alert is
appended per call. -/
theorem create_transaction_alert_iff_high (payload : Transaction) (now : ℕ) (db : DB) :
    ((create_transaction payload now db).1.alerts ≠ db.alerts
      ↔ score_to_level (compute_risk_score payload) = "high")
    ∧ (score_to_level (compute_risk_score payload) = "high"
      ↔ 70 ≤ compute_risk_score payload)
    ∧ (score_to_level (compute_risk_score payload) = "medium"
      → (create_transaction payload now db).1.alerts = db.alerts)
    ∧ (create_transaction payload now db).1.alerts.length ≤ db.alerts.length + 1 := by
  have halerts := create_transaction_alerts_eq payload now db
  refine ⟨?_, score_to_level_high_iff _, ?_, ?_⟩
  · rw [halerts]
    cases h : derive_alert payload db.nextId (compute_risk_score payload)
        (score_to_level (compute_risk_score payload)) with
    | none =>
      have : (derive_alert payload db.nextId (compute_risk_score payload)
          (score_to_level (compute_risk_score payload))).isSome = true ↔
          score_to_level (compute_risk_score payload) = "high" :=
        derive_alert_isSome_iff ..
      rw [h] at this
      simpa using this
    | some a =>
      have : (derive_alert payload db.nextId (compute_risk_score payload)
          (score_to_level (compute_risk_score payload))).isSome = true ↔
          score_to_level (compute_risk_score payload) = "high" :=
        derive_alert_isSome_iff ..
      rw [h] at this
      simp only [Option.toList_some]
      constructor
      · intro _
        exact this.mp rfl
      · intro _
        simp
  · intro hmed
    have hne : score_to_level (compute_risk_score payload) ≠ "high" := by
      rw [hmed]
      decide
    rw [halerts]
    unfold derive_alert
    rw [if_neg hne]
    simp
  · rw [halerts]
    cases derive_alert payload db.nextId (compute_risk_score payload)
        (score_to_level (compute_risk_score payload)) <;> simp

/-- Witness for C2 at end-to-end scenario 4 (score 45, level "medium"). -/
theorem create_transaction_alert_iff_high_witness :
    (create_transaction scenarioFour 0 initDB).1.alerts = initDB.alerts :=
  (create_transaction_alert_iff_high scenarioFour 0 initDB).2.2.1 (by decide)

/-- The singleton-or-empty tag list of one field, following the spec's words. -/
def optTag : Option String → List String
  | none => []
  | some s => if s = "" then [] else [s]

/-- The spec's description of the tag list: merchant_category, channel,
country in exactly that order, any null/empty field skipped, order preserved
among the present ones, no deduplication. -/
def claimTags (mcc channel country : Option String) : List String :=
  optTag mcc ++ optTag channel ++ optTag country

lemma truthyFilter_forall_ne (l : List (Option String)) :
    ∀ t ∈ truthyFilter l, t ≠ "" := by
  intro t ht
  obtain ⟨o, _, ho⟩ := List.mem_filterMap.mp ht
  match o with
  | none => exact absurd ho (by simp)
  | some s =>
    by_cases hs : s = "" <;> simp [hs] at ho
    exact ho ▸ hs

lemma truthyFilter_cons (o : Option String) (l : List (Option String)) :
    truthyFilter (o :: l) = optTag o ++ truthyFilter l := by
  cases o with
  | none => simp [truthyFilter, optTag, List.filterMap_cons]
  | some s => by_cases hs : s = "" <;> simp [truthyFilter, optTag, List.filterMap_cons, hs]

lemma truthyFilter_eq_claimTags (mcc channel country : Option String) :
    truthyFilter [mcc, channel, country] = claimTags mcc channel country := by
  rw [truthyFilter_cons, truthyFilter_cons, truthyFilter_cons]
  simp [claimTags, truthyFilter, List.append_assoc]

/-- C6: the tags of a derived alert are exactly the truthy values among
merchant_category, channel, country in that order (no deduplication), so the
list contains no empty entry and no absent field (nulls cannot occur in a
`List String`). -/
theorem alert_tags_ordered_nonempty (payload : Transaction) (id : ℕ) (a : AlertDoc)
    (h : derive_alert payload id (compute_risk_score payload)
      (score_to_level (compute_risk_score payload)) = some a) :
    a.tags = truthyFilter [payload.merchant_category, payload.channel, payload.country]
    ∧ (∀ t ∈ a.tags, t ≠ "")
    ∧ a.tags = claimTags payload.merchant_category payload.channel payload.country := by
  unfold derive_alert at h
  split_ifs at h with hl
  injection h with h
  subst h
  exact ⟨rfl, truthyFilter_forall_ne _, truthyFilter_eq_claimTags ..⟩

/-- The alert derived from end-to-end scenario 1 with storage identity 0. -/
def demoAlert : AlertDoc :=
  { transaction_ref := 0
    user_id := "u1"
    reason := "High-risk transaction: $6000 USD at unknown merchant"
    risk_score := 90
    risk_level := "high"
    tags := ["gambling", "web", "RU"] }

/-- Witness for C6 at end-to-end scenario 1. -/
theorem alert_tags_ordered_nonempty_witness :
    demoAlert.tags
        = truthyFilter [scenarioOne.merchant_category, scenarioOne.channel, scenarioOne.country]
    ∧ (∀ t ∈ demoAlert.tags, t ≠ "")
    ∧ demoAlert.tags
        = claimTags scenarioOne.merchant_category scenarioOne.channel scenarioOne.country :=
  alert_tags_ordered_nonempty scenarioOne 0 demoAlert (by decide)

/-- A payload with the caller-controlled derived keys cleared. -/
def stripDerived (p : Transaction) : Transaction :=
  { p with risk_score := none, risk_level := none }

/-- C5 (amended): caller-supplied `risk_score` and `risk_level` are overwritten
before persistence, so two create requests agreeing outside those two fields
produce identical stores and responses.  (`is_fraud` is NOT stripped; see the
counterexample.) -/
theorem create_transaction_ignores_caller_score_level (p1 p2 : Transaction) (now : ℕ)
    (db : DB) (h : stripDerived p1 = stripDerived p2) :
    create_transaction p1 now db = create_transaction p2 now db := by
  cases p1
  cases p2
  simp only [stripDerived, Transaction.mk.injEq, true_and, and_true] at h
  obtain ⟨h1, h2, h3, h4, h5, h6, h7, h8, h9, h10, h11, h12⟩ := h
  subst h1 h2 h3 h4 h5 h6 h7 h8 h9 h10 h11 h12
  rfl

/-- A payload differing from `baseTx` only in the caller-supplied risk fields. -/
def riskySuppliedTx : Transaction :=
  { baseTx with risk_score := some 99, risk_level := some "high" }

/-- Witness for C5 (amended): the two payloads differ in the supplied
`risk_score`/`risk_level` yet produce the same store and response. -/
theorem create_transaction_ignores_caller_score_level_witness :
    stripDerived baseTx = stripDerived riskySuppliedTx
    ∧ create_transaction baseTx 0 initDB = create_transaction riskySuppliedTx 0 initDB :=
  ⟨by decide,
    create_transaction_ignores_caller_score_level baseTx riskySuppliedTx 0 initDB (by decide)⟩

/-- A payload differing from `baseTx` only in the derived field `is_fraud`. -/
def fraudTrueTx : Transaction :=
  { baseTx with is_fraud := some true }

/-- Counterexample to C5 as stated: two requests that differ only in the
caller-supplied derived field `is_fraud` persist DIFFERENT transaction
documents (the handler overwrites `risk_score`/`risk_level` but passes
`is_fraud` through), although the returned score and level agree. -/
theorem create_transaction_is_fraud_counterexample :
    ({ baseTx with is_fraud := none } : Transaction) = { fraudTrueTx with is_fraud := none }
    ∧ baseTx.is_fraud ≠ fraudTrueTx.is_fraud
    ∧ (create_transaction baseTx 0 initDB).1.transactions
        ≠ (create_transaction fraudTrueTx 0 initDB).1.transactions
    ∧ (create_transaction baseTx 0 initDB).2 = (create_transaction fraudTrueTx 0 initDB).2 := by
  refine ⟨rfl, by decide, by decide, by decide⟩

/-- Counterexample to C4 as stated: a negative requested limit does NOT yield
the default of 50 — `limit or 50` keeps a truthy negative value, which
`max(1, ...)` then clamps to 1. -/
theorem clampLimit_negative_counterexample :
    clampLimit (some (-1)) = 1 ∧ clampLimit (some (-1)) ≠ 50 := by
  constructor <;> decide

/-- C4 (amended): a list call never returns more items than the effective
limit; an absent limit or a requested limit of exactly 0 yields 50, a negative
one yields 1, one above 200 yields 200, and one in the range 1 to 200 is used
unchanged. -/
theorem list_limit_clamped (db : DB) (l : Option ℤ) :
    (list_transactions db l).length ≤ (clampLimit l).toNat
    ∧ (list_alerts db l).length ≤ (clampLimit l).toNat
    ∧ clampLimit none = 50
    ∧ clampLimit (some 0) = 50
    ∧ (∀ n : ℤ, n < 0 → clampLimit (some n) = 1)
    ∧ (∀ n : ℤ, 200 < n → clampLimit (some n) = 200)
    ∧ (∀ n : ℤ, 1 ≤ n → n ≤ 200 → clampLimit (some n) = n) := by
  refine ⟨List.length_take_le .., List.length_take_le .., by decide, by decide, ?_, ?_, ?_⟩
  · intro n hn
    have hp : pyOrInt (some n) 50 = n := by
      simp only [pyOrInt, if_neg (show ¬ n = 0 by omega)]
    rw [clampLimit, hp, max_eq_left (by omega), min_eq_left (by omega)]
  · intro n hn
    have hp : pyOrInt (some n) 50 = n := by
      simp only [pyOrInt, if_neg (show ¬ n = 0 by omega)]
    rw [clampLimit, hp, max_eq_right (by omega), min_eq_right (by omega)]
  · intro n h1 h200
    have hp : pyOrInt (some n) 50 = n := by
      simp only [pyOrInt, if_neg (show ¬ n = 0 by omega)]
    rw [clampLimit, hp, max_eq_right (by omega), min_eq_left (by omega)]

/-- Witness for C4 (amended) at concrete limits. -/
theorem list_limit_clamped_witness :
    (list_transactions initDB (some 300)).length ≤ (clampLimit (some 300)).toNat
    ∧ clampLimit (some 300) = 200
    ∧ clampLimit (some (-7)) = 1
    ∧ clampLimit (some 37) = 37 :=
  ⟨(list_limit_clamped initDB (some 300)).1,
    (list_limit_clamped initDB (some 300)).2.2.2.2.2.1 300 (by decide),
    (list_limit_clamped initDB (some 300)).2.2.2.2.1 (-7) (by decide),
    (list_limit_clamped initDB (some 300)).2.2.2.2.2.2 37 (by decide) (by decide)⟩

/-- A raw create-request body with every field omitted. -/
def rawBase : RawRequest :=
  { transaction_id := none, user_id := none, amount := none, currency := none,
    merchant := none, merchant_category := none, country := none, channel := none,
    timestamp := none, device_id := none, ip_address := none,
    risk_score := none, risk_level := none, is_fraud := none }

/-- C8 (amended): a missing `user_id` or a negative `amount` is rejected by
validation with no persistence attempted; a request with `user_id` present,
`amount` present and non-negative, AND any supplied `risk_score` inside its
schema bounds is accepted.  (The last condition is forced by the
counterexample: the schema also bounds `risk_score`.) -/
theorem create_validation (r : RawRequest) (now : ℕ) (db : DB) :
    ((r.user_id = none ∨ (∃ a, r.amount = some a ∧ a < 0)) →
      (∃ e, handle_create r now db = Except.error e) ∧ stepDB db (r, now) = db)
    ∧ (∀ uid a, r.user_id = some uid → r.amount = some a → 0 ≤ a →
        riskScoreOutOfRange r.risk_score = false →
        ∃ res, handle_create r now db = Except.ok res) := by
  constructor
  · intro h
    have herr : ∃ e, validateTransaction r = Except.error e := by
      rcases h with huid | ⟨a, ha, hneg⟩
      · exact ⟨_, by rw [validateTransaction, huid]⟩
      · cases huid : r.user_id with
        | none => exact ⟨_, by rw [validateTransaction, huid]⟩
        | some uid =>
          exact ⟨"amount: input should be greater than or equal to 0", by
            simp only [validateTransaction, huid, ha]
            rw [if_pos hneg]⟩
    obtain ⟨e, he⟩ := herr
    have hh : handle_create r now db = Except.error e := by
      rw [handle_create, he]
    exact ⟨⟨e, hh⟩, by rw [stepDB, hh]⟩
  · intro uid a huid ha h0 hrs
    have hv : ∃ tx, validateTransaction r = Except.ok tx := by
      refine ⟨{ transaction_id := r.transaction_id
                user_id := uid
                amount := a
                currency := r.currency.getD "USD"
                merchant := r.merchant
                merchant_category := r.merchant_category
                country := r.country.getD (some "US")
                channel := r.channel.getD (some "card")
                timestamp := r.timestamp
                device_id := r.device_id
                ip_address := r.ip_address
                risk_score := r.risk_score
                risk_level := r.risk_level
                is_fraud := r.is_fraud.getD (some false) }, ?_⟩
      simp only [validateTransaction, huid, ha]
      rw [if_neg (not_lt.mpr h0), if_neg (by simp [hrs])]
    obtain ⟨tx, hv⟩ := hv
    exact ⟨_, by rw [handle_create, hv]⟩

/-- A body whose `user_id` is present and whose `amount` is non-negative, but
whose supplied `risk_score` violates the schema bound `le=100`. -/
def rawBadRiskScore : RawRequest :=
  { rawBase with user_id := some "u1", amount := some 0, risk_score := some 101 }

/-- Counterexample to C8 as stated: this request has `user_id` present and
`amount` of 0, yet pydantic validation rejects it, because `risk_score`
carries the field constraint `ge=0, le=100` in the schema. -/
theorem create_validation_counterexample :
    rawBadRiskScore.user_id = some "u1"
    ∧ rawBadRiskScore.amount = some 0
    ∧ handle_create rawBadRiskScore 0 initDB
        = Except.error "risk_score: input should be between 0 and 100" := by
  refine ⟨rfl, rfl, by rfl⟩

/-- Witness for C8 (amended): a missing `user_id` is rejected without touching
the store, and a minimal valid body is accepted. -/
theorem create_validation_witness :
    ((∃ e, handle_create rawBase 0 initDB = Except.error e)
      ∧ stepDB initDB (rawBase, 0) = initDB)
    ∧ (∃ res, handle_create { rawBase with user_id := some "u1", amount := some 3 } 0 initDB
        = Except.ok res) :=
  ⟨(create_validation rawBase 0 initDB).1 (Or.inl rfl),
    (create_validation { rawBase with user_id := some "u1", amount := some 3 } 0 initDB).2
      "u1" 3 rfl rfl (by decide) (by decide)⟩

/-- The alert-store invariant: every alert is "high", scored at least 70, and
agrees with its owning transaction on score, level and user. -/
def alertInvariant (db : DB) : Prop :=
  ∀ a ∈ db.alerts,
    a.risk_level = "high" ∧ 70 ≤ a.risk_score
    ∧ ∃ t ∈ db.transactions,
        t.id = a.transaction_ref ∧ t.risk_score = a.risk_score
        ∧ t.risk_level = a.risk_level ∧ t.user_id = a.user_id

lemma derive_alert_eq_some (payload : Transaction) (id : ℕ) (score : ℚ) (level : String)
    (a : AlertDoc) (h : derive_alert payload id score level = some a) :
    level = "high"
    ∧ a = { transaction_ref := id
            user_id := payload.user_id
            reason := mkReason payload.amount payload.currency payload.merchant
            risk_score := score
            risk_level := level
            tags := truthyFilter [payload.merchant_category, payload.channel, payload.country] } := by
  unfold derive_alert at h
  split_ifs at h with hl
  injection h with h
  exact ⟨hl, h.symm⟩

lemma alertInvariant_create (payload : Transaction) (now : ℕ) (db : DB)
    (inv : alertInvariant db) : alertInvariant (create_transaction payload now db).1 := by
  intro a ha
  rw [create_transaction_alerts_eq] at ha
  have htx : (create_transaction payload now db).1.transactions
      = db.transactions ++ [mkTxDoc payload db.nextId (payload.timestamp.getD now)
          (compute_risk_score payload) (score_to_level (compute_risk_score payload))] := by
    unfold create_transaction
    cases hd : derive_alert payload db.nextId (compute_risk_score payload)
        (score_to_level (compute_risk_score payload)) <;> simp [hd]
  rcases List.mem_append.mp ha with hold | hnew
  · obtain ⟨hlev, hge, t, htmem, hfacts⟩ := inv a hold
    exact ⟨hlev, hge, t, by rw [htx]; exact List.mem_append_left _ htmem, hfacts⟩
  · cases hd : derive_alert payload db.nextId (compute_risk_score payload)
        (score_to_level (compute_risk_score payload)) with
    | none => rw [hd] at hnew; exact absurd hnew (by simp)
    | some a0 =>
      rw [hd] at hnew
      have ha0 : a = a0 := by simpa using hnew
      obtain ⟨hlev, hform⟩ := derive_alert_eq_some _ _ _ _ _ hd
      subst ha0
      subst hform
      refine ⟨hlev, (score_to_level_high_iff _).mp hlev, ?_⟩
      refine ⟨mkTxDoc payload db.nextId (payload.timestamp.getD now)
          (compute_risk_score payload) (score_to_level (compute_risk_score payload)), ?_, ?_⟩
      · rw [htx]
        exact List.mem_append_right _ (by simp)
      · exact ⟨rfl, rfl, rfl, rfl⟩

lemma alertInvariant_step (db : DB) (p : RawRequest × ℕ) (inv : alertInvariant db) :
    alertInvariant (stepDB db p) := by
  unfold stepDB handle_create
  cases hv : validateTransaction p.1 with
  | error e => exact inv
  | ok tx => exact alertInvariant_create tx p.2 db inv

lemma alertInvariant_foldl (reqs : List (RawRequest × ℕ)) :
    ∀ db : DB, alertInvariant db → alertInvariant (reqs.foldl stepDB db) := by
  induction reqs with
  | nil => exact fun db h => h
  | cons p ps ih => exact fun db h => ih _ (alertInvariant_step db p h)

lemma alertInvariant_runRequests (reqs : List (RawRequest × ℕ)) :
    alertInvariant (runRequests reqs) := by
  apply alertInvariant_foldl
  intro a ha
  exact absurd ha (by simp [initDB])

/-- C9: in any store reached from empty by a sequence of create-calls, every
persisted alert has level "high" and score at least 70, both copied from its
owning transaction, whose user it also carries. -/
theorem alerts_invariant_reachable (reqs : List (RawRequest × ℕ)) (a : AlertDoc)
    (ha : a ∈ (runRequests reqs).alerts) :
    a.risk_level = "high" ∧ 70 ≤ a.risk_score
    ∧ ∃ t ∈ (runRequests reqs).transactions,
        t.id = a.transaction_ref ∧ t.risk_score = a.risk_score
        ∧ t.risk_level = a.risk_level ∧ t.user_id = a.user_id :=
  alertInvariant_runRequests reqs a ha

/-- The raw body of end-to-end scenario 1, submitted over the API. -/
def demoRaw : RawRequest :=
  { rawBase with
    user_id := some "u1"
    amount := some 6000
    country := some (some "RU")
    channel := some (some "web")
    merchant_category := some "gambling" }

/-- Witness for C9: the single high-risk create-call of scenario 1 persists
exactly `demoAlert`, and the invariant instantiates on it. -/
theorem alerts_invariant_reachable_witness :
    demoAlert ∈ (runRequests [(demoRaw, 0)]).alerts
    ∧ (demoAlert.risk_level = "high" ∧ 70 ≤ demoAlert.risk_score
      ∧ ∃ t ∈ (runRequests [(demoRaw, 0)]).transactions,
          t.id = demoAlert.transaction_ref ∧ t.risk_score = demoAlert.risk_score
          ∧ t.risk_level = demoAlert.risk_level ∧ t.user_id = demoAlert.user_id) :=
  ⟨by decide, alerts_invariant_reachable [(demoRaw, 0)] demoAlert (by decide)⟩

end FraudApp
